import Mathlib

set_option linter.unusedVariables false

/-!
Shallow embedding of the magic-image-editor server code
(src/server/local_pipelines.py, src/server/main.py,
src/server/simple_backend.py) together with proofs of the
specification claims about it.

Image, mask and PNG payloads are byte strings, modelled as `List Nat`.
-/

abbrev Bytes := List Nat

namespace MockServer

/-! Embedding of src/server/local_pipelines.py: placeholder generation
functions that return the input image unchanged. -/

/-- `turbo_generate_bg(image_bytes, prompt)` from local_pipelines.py:
placeholder, returns the original image. -/
def turbo_generate_bg (image_bytes : Bytes) (prompt : String) : Bytes :=
  image_bytes

/-- `turbo_inpaint(image_bytes, mask_bytes, prompt)` from local_pipelines.py:
placeholder, returns the original image. -/
def turbo_inpaint (image_bytes : Bytes) (mask_bytes : Bytes) (prompt : String) : Bytes :=
  image_bytes

/-- `pix2pix_edit(image_bytes, mask_bytes, prompt)` from local_pipelines.py:
placeholder, returns the original image. -/
def pix2pix_edit (image_bytes : Bytes) (mask_bytes : Bytes) (prompt : String) : Bytes :=
  image_bytes

/-- `gligen_expand(image_bytes, prompt)` from local_pipelines.py:
placeholder, returns the original image. -/
def gligen_expand (image_bytes : Bytes) (prompt : String) : Bytes :=
  image_bytes

/-! Embedding of src/server/main.py: the mock upload router.

Each handler wraps the generation result in
`StreamingResponse(iter([png_bytes]), media_type="image/png")`, a
single-chunk stream.  The embedding records the HTTP status, the list
of streamed chunks, the media type, and (as instrumentation needed to
state non-invocation claims) the number of times the handler invoked
its generation function.

FastAPI parameter semantics for the prompt argument:
`prompt: str = Form("")` (on `/generate_bg` and `/inpaint`) is an
optional form field defaulting to the empty string, while a bare
`prompt: str` (on `/edit` and `/expand`) is a required parameter whose
absence makes FastAPI reject the request with a 422 validation error
before the handler body runs.  A request therefore carries
`prompt : Option String`, `none` meaning the client sent no prompt. -/

structure RouteResponse where
  status : Nat
  chunks : List Bytes
  media_type : String
  genCalls : Nat
deriving DecidableEq, Repr

/-- A successful single-chunk `image/png` streaming response. -/
def pngStream (body : Bytes) : RouteResponse :=
  { status := 200, chunks := [body], media_type := "image/png", genCalls := 1 }

/-- The FastAPI 422 response produced when a required parameter is
missing; the handler body (and hence the generation function) never runs. -/
def validationError : RouteResponse :=
  { status := 422, chunks := [], media_type := "application/json", genCalls := 0 }

/-- `POST /generate_bg` from main.py: `prompt: str = Form("")`. -/
def generate_bg (image : Bytes) (prompt : Option String) : RouteResponse :=
  pngStream (turbo_generate_bg image (prompt.getD ""))

/-- `POST /inpaint` from main.py: `prompt: str = Form("")`. -/
def inpaint (image : Bytes) (mask : Bytes) (prompt : Option String) : RouteResponse :=
  pngStream (turbo_inpaint image mask (prompt.getD ""))

/-- `POST /edit` from main.py: bare `prompt: str` is required, so a
missing prompt is rejected by validation before the handler runs. -/
def edit (image : Bytes) (mask : Bytes) (prompt : Option String) : RouteResponse :=
  match prompt with
  | none => validationError
  | some p => pngStream (pix2pix_edit image mask p)

/-- `POST /expand` from main.py: bare `prompt: str` is required, so a
missing prompt is rejected by validation before the handler runs. -/
def expand (image : Bytes) (prompt : Option String) : RouteResponse :=
  match prompt with
  | none => validationError
  | some p => pngStream (gligen_expand image p)

end MockServer

namespace MockServer

/-- Claim C1: every mock generation function returns exactly the input
image bytes, and every mock endpoint (given its uploads and a prompt
string) responds with a single-chunk stream of media type image/png whose
body bytes equal the uploaded image bytes. -/
theorem mock_endpoints_identity (image mask : Bytes) (prompt : String) :
    turbo_generate_bg image prompt = image ∧
    turbo_inpaint image mask prompt = image ∧
    pix2pix_edit image mask prompt = image ∧
    gligen_expand image prompt = image ∧
    generate_bg image (some prompt) =
      { status := 200, chunks := [image], media_type := "image/png", genCalls := 1 } ∧
    inpaint image mask (some prompt) =
      { status := 200, chunks := [image], media_type := "image/png", genCalls := 1 } ∧
    edit image mask (some prompt) =
      { status := 200, chunks := [image], media_type := "image/png", genCalls := 1 } ∧
    expand image (some prompt) =
      { status := 200, chunks := [image], media_type := "image/png", genCalls := 1 } := by
  refine ⟨rfl, rfl, rfl, rfl, rfl, rfl, rfl, rfl⟩

/-- Claim C10: on the mock router the prompt is an optional form field
defaulting to the empty string for /generate_bg and /inpaint, but a
required parameter for /edit and /expand.  A request with only the file
uploads and no prompt succeeds on the former two endpoints and is
rejected with a 422 validation error, the generation function never
being called, on the latter two. -/
theorem prompt_optionality (image mask : Bytes) :
    generate_bg image none = generate_bg image (some "") ∧
    inpaint image mask none = inpaint image mask (some "") ∧
    generate_bg image none =
      { status := 200, chunks := [image], media_type := "image/png", genCalls := 1 } ∧
    inpaint image mask none =
      { status := 200, chunks := [image], media_type := "image/png", genCalls := 1 } ∧
    edit image mask none =
      { status := 422, chunks := [], media_type := "application/json", genCalls := 0 } ∧
    expand image none =
      { status := 422, chunks := [], media_type := "application/json", genCalls := 0 } := by
  refine ⟨rfl, rfl, rfl, rfl, rfl, rfl⟩

end MockServer

namespace Backend

/-! Embedding of src/server/simple_backend.py: the pipeline-backed
FastAPI service.

The external Stable Diffusion pipeline (the diffusers library) is out of
scope for the repository; the service only stores a handle to it in the
module-level global `pipe` and calls it.  The embedding keeps the
pipeline abstract as a function from the call arguments to either a
generated image or an exception message. -/

/-- The arguments `generate_image` passes to the pipeline call
`pipe(prompt=..., width=..., height=..., num_inference_steps=...,
guidance_scale=...)`.  The Python float `guidance_scale` carries only
the exactly representable literal 7.5 through this code, so it is
modelled as a rational. -/
structure PipeArgs where
  prompt : String
  width : Int
  height : Int
  num_inference_steps : Int
  guidance_scale : Rat
deriving DecidableEq, Repr

/-- An image produced by the pipeline, before PNG serialisation. -/
structure Image where
  width : Int
  height : Int
  data : Bytes
deriving DecidableEq, Repr

/-- Modelled from the spec: the external pretrained pipeline (the
generator collaborator, out of migration scope) is invoked synchronously
and either returns an image or raises an exception carrying a message. -/
def PipelineFn : Type := PipeArgs → Except String Image

/-- The module-level global `pipe = None`, set once by the startup hook:
`none` when loading failed (or has not happened), `some p` otherwise. -/
def ServerState : Type := Option PipelineFn

/-- `startup_event` from simple_backend.py: assigns the loaded pipeline
to the global handle, or leaves it null when loading raised. -/
def startup_event (loadResult : Except String PipelineFn) : ServerState :=
  match loadResult with
  | .ok p => some p
  | .error _ => none

/-- The pydantic model `GenerateRequest` with its field defaults. -/
structure GenerateRequest where
  prompt : String
  width : Int := 512
  height : Int := 512
  num_inference_steps : Int := 20
  guidance_scale : Rat := 7.5
deriving DecidableEq, Repr

/-- A JSON body as received on the wire, before pydantic validation:
each `GenerateRequest` field is present or absent. -/
structure RawGenerateBody where
  prompt : Option String := none
  width : Option Int := none
  height : Option Int := none
  num_inference_steps : Option Int := none
  guidance_scale : Option Rat := none
deriving DecidableEq, Repr

/-- Pydantic validation of a JSON object against `GenerateRequest`:
`prompt` has no default and is required; every other field falls back to
its default.  `none` is the 422 validation failure. -/
def parseGenerateRequest (b : RawGenerateBody) : Option GenerateRequest :=
  match b.prompt with
  | none => none
  | some p =>
    some { prompt := p
           width := b.width.getD 512
           height := b.height.getD 512
           num_inference_steps := b.num_inference_steps.getD 20
           guidance_scale := b.guidance_scale.getD 7.5 }

/-- The pydantic model `HealthResponse`. -/
structure HealthResponse where
  status : String
  models : List String
deriving DecidableEq, Repr

/-- One entry of the static model list served by /sdapi/v1/sd-models. -/
structure SDModel where
  title : String
  model_name : String
deriving DecidableEq, Repr

/-- A response of the pipeline-backed service: either a streamed body
with a media type (`StreamingResponse`) or an `HTTPException` with a
status code and detail string. -/
inductive BackendResponse where
  | stream (chunks : List Bytes) (media_type : String)
  | httpError (status : Nat) (detail : String)
deriving DecidableEq, Repr

/-- The HTTP status of a backend response; a streamed response is 200. -/
def responseStatus : BackendResponse → Nat
  | .stream _ _ => 200
  | .httpError s _ => s

/-- The PNG signature bytes. -/
def pngSignature : Bytes := [137, 80, 78, 71, 13, 10, 26, 10]

/-- Big-endian 4-byte encoding of a dimension, as it appears in the
IHDR chunk of a PNG file. -/
def be32 (n : Nat) : Bytes :=
  [n / 2 ^ 24 % 256, n / 2 ^ 16 % 256, n / 2 ^ 8 % 256, n % 256]

/-- Modelled from the spec: PNG serialisation of the generated image
(`image.save(img_byte_arr, format='PNG')`, delegated to the external PIL
library): the PNG signature followed by the big-endian image dimensions
and the payload. -/
def pngEncode (img : Image) : Bytes :=
  pngSignature ++ be32 img.width.toNat ++ be32 img.height.toNat ++ img.data

/-- Modelled from the spec: reading back the dimensions of a well-formed
PNG byte string; `none` when the bytes do not start with a PNG signature
and size record. -/
def pngDims (b : Bytes) : Option (Nat × Nat) :=
  match b with
  | s0 :: s1 :: s2 :: s3 :: s4 :: s5 :: s6 :: s7 ::
      w0 :: w1 :: w2 :: w3 :: h0 :: h1 :: h2 :: h3 :: _ =>
    if [s0, s1, s2, s3, s4, s5, s6, s7] = pngSignature then
      some (((w0 * 256 + w1) * 256 + w2) * 256 + w3,
            ((h0 * 256 + h1) * 256 + h2) * 256 + h3)
    else
      none
  | _ => none

/-- `health_check` (GET /health) from simple_backend.py. -/
def health_check (pipe : ServerState) : HealthResponse :=
  { status := if pipe.isSome then "healthy" else "unhealthy"
    models := if pipe.isSome then ["stable-diffusion-v1-5"] else [] }

/-- `get_models` (GET /sdapi/v1/sd-models) from simple_backend.py: the
handler reads no state and returns a fixed list. -/
def get_models (pipe : ServerState) : List SDModel :=
  [{ title := "stable-diffusion-v1-5", model_name := "stable-diffusion-v1-5" }]

/-- The keyword arguments of the call `pipe(prompt=request.prompt,
width=request.width, height=request.height,
num_inference_steps=request.num_inference_steps,
guidance_scale=request.guidance_scale)` inside `generate_image`. -/
def pipeArgsOf (request : GenerateRequest) : PipeArgs :=
  { prompt := request.prompt
    width := request.width
    height := request.height
    num_inference_steps := request.num_inference_steps
    guidance_scale := request.guidance_scale }

/-- `generate_image` (POST /sdapi/v1/txt2img) from simple_backend.py,
after request validation.  Alongside the response it returns the list of
pipeline invocations the handler performed, the instrumentation needed
to state claims about the pipeline being or not being called. -/
def generate_image (pipe : ServerState) (request : GenerateRequest) :
    BackendResponse × List PipeArgs :=
  match pipe with
  | none => (.httpError 503 "Pipeline not loaded", [])
  | some p =>
    match p (pipeArgsOf request) with
    | .ok image => (.stream [pngEncode image] "image/png", [pipeArgsOf request])
    | .error e => (.httpError 500 e, [pipeArgsOf request])

/-- `generate_background` (POST /generate_bg) from simple_backend.py:
`return await generate_image(request)`. -/
def generate_background (pipe : ServerState) (request : GenerateRequest) :
    BackendResponse × List PipeArgs :=
  generate_image pipe request

/-- POST /sdapi/v1/txt2img as seen on the wire: FastAPI first parses the
body (`none` stands for a body that is not valid JSON), then validates
it against `GenerateRequest`, rejecting with 422 before the handler
runs; only then is `generate_image` entered. -/
def txt2imgService (pipe : ServerState) (body : Option RawGenerateBody) :
    BackendResponse × List PipeArgs :=
  match body with
  | none => (.httpError 422 "Invalid JSON body", [])
  | some b =>
    match parseGenerateRequest b with
    | none => (.httpError 422 "Field required: prompt", [])
    | some request => generate_image pipe request

/-- POST /generate_bg on the wire: same `GenerateRequest` JSON body
validation, then `generate_background`. -/
def generateBgService (pipe : ServerState) (body : Option RawGenerateBody) :
    BackendResponse × List PipeArgs :=
  match body with
  | none => (.httpError 422 "Invalid JSON body", [])
  | some b =>
    match parseGenerateRequest b with
    | none => (.httpError 422 "Field required: prompt", [])
    | some request => generate_background pipe request

/-- The route-level view of GET /health as a state transformer on the
global pipeline handle: the handler body contains no assignment to the
global, so the outgoing state is the incoming one. -/
def health_route (s : ServerState) : HealthResponse × ServerState :=
  (health_check s, s)

/-- The route-level view of GET /sdapi/v1/sd-models; no assignment to
the global handle. -/
def models_route (s : ServerState) : List SDModel × ServerState :=
  (get_models s, s)

/-- The route-level view of POST /sdapi/v1/txt2img; no assignment to the
global handle. -/
def txt2img_route (s : ServerState) (body : Option RawGenerateBody) :
    (BackendResponse × List PipeArgs) × ServerState :=
  (txt2imgService s body, s)

/-- The route-level view of POST /generate_bg; no assignment to the
global handle. -/
def generate_bg_route (s : ServerState) (body : Option RawGenerateBody) :
    (BackendResponse × List PipeArgs) × ServerState :=
  (generateBgService s body, s)

/-- A concrete well-behaved pipeline used to witness hypotheses: it
returns a blank image of the requested dimensions. -/
def mockPipe : PipelineFn :=
  fun args => .ok { width := args.width, height := args.height, data := [] }

/-- A concrete always-failing pipeline used to witness hypotheses. -/
def failPipe : PipelineFn :=
  fun args => .error "CUDA out of memory"

/-- Modelled from the spec: the external pipeline honours the requested
dimensions, so a successful generation returns an image of the width and
height it was asked for. -/
def pipelineRespectsSize (p : PipelineFn) : Prop :=
  ∀ args img, p args = .ok img → img.width = args.width ∧ img.height = args.height

end Backend

namespace Backend

/-- The mock pipeline honours the requested dimensions. -/
theorem mockPipe_respects_size : pipelineRespectsSize mockPipe := by
  intro args img h
  injection h with h
  subst h
  exact ⟨rfl, rfl⟩

/-- Any image whose dimensions are 512 by 512 serialises to a
well-formed PNG whose recorded size is 512 by 512. -/
theorem pngDims_pngEncode_512 (data : Bytes) :
    pngDims (pngEncode { width := 512, height := 512, data := data }) = some (512, 512) := by
  simp [pngEncode, pngSignature, be32, pngDims]

/-- Claim C2: with a null pipeline handle, /sdapi/v1/txt2img answers 503
without invoking the pipeline, both at handler level and for any request
whose body validates; with a loaded handle the status is never 503. -/
theorem txt2img_503_before_startup (p : PipelineFn) (body : RawGenerateBody)
    (request : GenerateRequest) (hb : parseGenerateRequest body = some request) :
    generate_image none request = (.httpError 503 "Pipeline not loaded", []) ∧
    responseStatus (generate_image (some p) request).1 ≠ 503 ∧
    txt2imgService none (some body) = (.httpError 503 "Pipeline not loaded", []) := by
  refine ⟨rfl, ?_, ?_⟩
  · cases h : p (pipeArgsOf request) with
    | ok image => simp [generate_image, h, responseStatus]
    | error e => simp [generate_image, h, responseStatus]
  · simp [txt2imgService, hb, generate_image]

/-- Witness for C2 at a concrete pipeline, body and request. -/
theorem txt2img_503_before_startup_witness :
    generate_image none { prompt := "a cat" } = (.httpError 503 "Pipeline not loaded", []) ∧
    responseStatus (generate_image (some mockPipe) { prompt := "a cat" }).1 ≠ 503 ∧
    txt2imgService none (some { prompt := some "a cat" }) =
      (.httpError 503 "Pipeline not loaded", []) :=
  txt2img_503_before_startup mockPipe { prompt := some "a cat" } { prompt := "a cat" } rfl

/-- Claim C3: with a loaded pipeline, an exception raised by the
generation step surfaces as HTTP 500 whose detail is the exception
message verbatim, and 503 and 500 are the only error statuses the
handler produces. -/
theorem txt2img_500_verbatim (p : PipelineFn) (request : GenerateRequest) (e : String)
    (he : p (pipeArgsOf request) = .error e) :
    generate_image (some p) request = (.httpError 500 e, [pipeArgsOf request]) ∧
    ∀ pipe r st d, (generate_image pipe r).1 = .httpError st d → st = 503 ∨ st = 500 := by
  constructor
  · simp [generate_image, he]
  · intro pipe r st d h
    cases pipe with
    | none =>
      simp only [generate_image] at h
      injection h with h1 h2
      exact Or.inl h1.symm
    | some q =>
      cases hq : q (pipeArgsOf r) with
      | ok image => simp [generate_image, hq] at h
      | error err =>
        simp only [generate_image, hq] at h
        injection h with h1 h2
        exact Or.inr h1.symm

/-- Witness for C3 at a concrete failing pipeline and request. -/
theorem txt2img_500_verbatim_witness :
    generate_image (some failPipe) { prompt := "a cat" } =
      (.httpError 500 "CUDA out of memory", [pipeArgsOf { prompt := "a cat" }]) :=
  (txt2img_500_verbatim failPipe { prompt := "a cat" } "CUDA out of memory" rfl).1

/-- Claim C4: /health always returns a status and a models field; it
returns status unhealthy with an empty models list exactly when the
pipeline handle is null, and status healthy with the one-element list
otherwise. -/
theorem health_reports_pipeline_state (pipe : ServerState) :
    health_check pipe = (match pipe with
      | none => { status := "unhealthy", models := [] }
      | some _ => { status := "healthy", models := ["stable-diffusion-v1-5"] }) ∧
    (health_check pipe = { status := "unhealthy", models := [] } ↔ pipe = none) := by
  cases pipe with
  | none => refine ⟨rfl, ?_⟩; simp [health_check]
  | some p => refine ⟨rfl, ?_⟩; simp [health_check]

/-- Witness for C4 at the concrete states null and loaded. -/
theorem health_reports_pipeline_state_witness :
    (health_check none = { status := "unhealthy", models := [] } ↔ (none : ServerState) = none) ∧
    health_check (some mockPipe) =
      { status := "healthy", models := ["stable-diffusion-v1-5"] } :=
  ⟨(health_reports_pipeline_state none).2, (health_reports_pipeline_state (some mockPipe)).1⟩

/-- Counterexample to claim C5 as stated: /health does not return the
same response in every state of the pipeline handle; the loaded and the
null state produce different health responses. -/
theorem health_not_static_counterexample :
    health_check (some mockPipe) ≠ health_check none := by
  simp [health_check]

/-- Claim C5 (amended): /sdapi/v1/sd-models returns the same response in
any two states of the pipeline handle whatsoever, and /health returns
the same response in any two states that agree on whether the handle is
null. -/
theorem models_static_health_depends_only_on_null (s1 s2 : ServerState)
    (h : s1.isSome = s2.isSome) :
    (∀ t1 t2 : ServerState, get_models t1 = get_models t2) ∧
    health_check s1 = health_check s2 := by
  refine ⟨fun t1 t2 => rfl, ?_⟩
  simp [health_check, h]

/-- Witness for the amended C5: sd-models agrees between a loaded state
and the null state, and /health agrees between two loaded states. -/
theorem models_static_health_depends_only_on_null_witness :
    get_models (some mockPipe) = get_models none ∧
    health_check (some mockPipe) = health_check (some failPipe) := by
  have h := models_static_health_depends_only_on_null (some mockPipe) (some failPipe) rfl
  exact ⟨h.1 (some mockPipe) none, h.2⟩

/-- Claim C6: a /sdapi/v1/txt2img body carrying only a prompt validates
to the default parameters, the handler invokes the pipeline with width
512, height 512, 20 inference steps and guidance scale 7.5, and (for a
pipeline honouring the requested dimensions) the response streams a
well-formed PNG of size 512 by 512. -/
theorem txt2img_default_dimensions (p : PipelineFn) (image : Image) (prompt : String)
    (hp : pipelineRespectsSize p)
    (hok : p (pipeArgsOf { prompt := prompt }) = .ok image) :
    parseGenerateRequest { prompt := some prompt } =
      some { prompt := prompt, width := 512, height := 512,
             num_inference_steps := 20, guidance_scale := 7.5 } ∧
    pipeArgsOf { prompt := prompt } =
      { prompt := prompt, width := 512, height := 512,
        num_inference_steps := 20, guidance_scale := 7.5 } ∧
    txt2imgService (some p) (some { prompt := some prompt }) =
      (.stream [pngEncode image] "image/png", [pipeArgsOf { prompt := prompt }]) ∧
    pngDims (pngEncode image) = some (512, 512) := by
  obtain ⟨hw, hh⟩ := hp _ _ hok
  refine ⟨rfl, rfl, ?_, ?_⟩
  · simp [txt2imgService, parseGenerateRequest, generate_image, hok]
  · obtain ⟨w, h, data⟩ := image
    simp only at hw hh
    subst hw
    subst hh
    exact pngDims_pngEncode_512 data

/-- Witness for C6 at the concrete well-behaved pipeline. -/
theorem txt2img_default_dimensions_witness :
    txt2imgService (some mockPipe) (some { prompt := some "a cat" }) =
      (.stream [pngEncode { width := 512, height := 512, data := [] }] "image/png",
       [pipeArgsOf { prompt := "a cat" }]) ∧
    pngDims (pngEncode { width := 512, height := 512, data := [] }) = some (512, 512) := by
  have h := txt2img_default_dimensions mockPipe
    { width := 512, height := 512, data := [] } "a cat" mockPipe_respects_size rfl
  exact ⟨h.2.2.1, h.2.2.2⟩

/-- Claim C7: a /sdapi/v1/txt2img request whose body is not valid JSON,
or fails validation against GenerateRequest (missing prompt), is
answered with a 422 client error and the pipeline is never invoked. -/
theorem malformed_body_rejected (pipe : ServerState) (b : RawGenerateBody)
    (hb : parseGenerateRequest b = none) :
    txt2imgService pipe none = (.httpError 422 "Invalid JSON body", []) ∧
    txt2imgService pipe (some b) = (.httpError 422 "Field required: prompt", []) ∧
    400 ≤ responseStatus (txt2imgService pipe (some b)).1 ∧
    responseStatus (txt2imgService pipe (some b)).1 < 500 ∧
    (txt2imgService pipe (some b)).2 = [] := by
  refine ⟨rfl, ?_, ?_, ?_, ?_⟩ <;> simp [txt2imgService, hb, responseStatus]

/-- Witness for C7: a loaded pipeline and a body missing the prompt. -/
theorem malformed_body_rejected_witness :
    txt2imgService (some mockPipe) none = (.httpError 422 "Invalid JSON body", []) ∧
    txt2imgService (some mockPipe) (some ({} : RawGenerateBody)) =
      (.httpError 422 "Field required: prompt", []) :=
  ⟨(malformed_body_rejected (some mockPipe) {} rfl).1,
   (malformed_body_rejected (some mockPipe) {} rfl).2.1⟩

/-- Claim C8: the pipeline handle is assigned only by the startup hook,
to the loaded pipeline or to null on load failure, and every request
handler leaves the handle exactly as it found it. -/
theorem pipeline_handle_readonly (s : ServerState) (body : Option RawGenerateBody)
    (p : PipelineFn) (e : String) :
    startup_event (.ok p) = some p ∧
    startup_event (.error e) = none ∧
    (health_route s).2 = s ∧
    (models_route s).2 = s ∧
    (txt2img_route s body).2 = s ∧
    (generate_bg_route s body).2 = s :=
  ⟨rfl, rfl, rfl, rfl, rfl, rfl⟩

/-- Claim C9: POST /generate_bg accepts the same GenerateRequest JSON
body as POST /sdapi/v1/txt2img and returns exactly the same response on
every body and in every pipeline state, error behaviour included. -/
theorem generate_bg_equals_txt2img (pipe : ServerState) (body : Option RawGenerateBody)
    (request : GenerateRequest) :
    generateBgService pipe body = txt2imgService pipe body ∧
    generate_background pipe request = generate_image pipe request :=
  ⟨rfl, rfl⟩

end Backend
